import Mathlib

/-!
Shallow embedding of the cccs configuration-switcher core
(`src-tauri/src/config_service.rs`, `src-tauri/src/monitor_service.rs`,
`src-tauri/src/types.rs`, `src-tauri/src/error.rs`) together with proofs
about its profile-status comparison, atomic switch protocol, and change
monitor.  External library calls (serde_json parsing and printing,
crc32 hashing, the OS filesystem and clock) are modelled explicitly:
parsing and printing are threaded as function parameters, and the
filesystem is an explicit state with injectable per-path failures.
-/

set_option maxRecDepth 4000

namespace Cccs

/-! ## JSON values (model of `serde_json::Value`)

Objects are association lists; the map of `serde_json` (a `BTreeMap`) iterates
in a canonical key order, so deep equality of parsed values is structural
equality of these lists.  Numbers are modelled as integers; the claims
under study depend only on equality of values, never on numeric parsing. -/

inductive Json where
  | null
  | bool (b : Bool)
  | num (n : Int)
  | str (s : String)
  | arr (xs : List Json)
  | obj (fields : List (String × Json))

mutual

def Json.decEq : (a b : Json) → Decidable (a = b)
  | .null, .null => isTrue rfl
  | .bool a, .bool b =>
    if h : a = b then isTrue (h ▸ rfl) else isFalse (fun he => h (Json.bool.inj he))
  | .num a, .num b =>
    if h : a = b then isTrue (h ▸ rfl) else isFalse (fun he => h (Json.num.inj he))
  | .str a, .str b =>
    if h : a = b then isTrue (h ▸ rfl) else isFalse (fun he => h (Json.str.inj he))
  | .arr a, .arr b =>
    match Json.decEqList a b with
    | isTrue h => isTrue (h ▸ rfl)
    | isFalse h => isFalse (fun he => h (Json.arr.inj he))
  | .obj a, .obj b =>
    match Json.decEqFields a b with
    | isTrue h => isTrue (h ▸ rfl)
    | isFalse h => isFalse (fun he => h (Json.obj.inj he))
  | .null, .bool _ | .null, .num _ | .null, .str _ | .null, .arr _ | .null, .obj _
  | .bool _, .null | .bool _, .num _ | .bool _, .str _ | .bool _, .arr _ | .bool _, .obj _
  | .num _, .null | .num _, .bool _ | .num _, .str _ | .num _, .arr _ | .num _, .obj _
  | .str _, .null | .str _, .bool _ | .str _, .num _ | .str _, .arr _ | .str _, .obj _
  | .arr _, .null | .arr _, .bool _ | .arr _, .num _ | .arr _, .str _ | .arr _, .obj _
  | .obj _, .null | .obj _, .bool _ | .obj _, .num _ | .obj _, .str _ | .obj _, .arr _ =>
    isFalse (fun he => Json.noConfusion he)

def Json.decEqList : (a b : List Json) → Decidable (a = b)
  | [], [] => isTrue rfl
  | [], _ :: _ => isFalse (fun he => List.noConfusion he)
  | _ :: _, [] => isFalse (fun he => List.noConfusion he)
  | x :: xs, y :: ys =>
    match Json.decEq x y, Json.decEqList xs ys with
    | isTrue h1, isTrue h2 => isTrue (h1 ▸ h2 ▸ rfl)
    | isFalse h1, _ => isFalse (fun he => h1 (List.cons.inj he).1)
    | _, isFalse h2 => isFalse (fun he => h2 (List.cons.inj he).2)

def Json.decEqFields : (a b : List (String × Json)) → Decidable (a = b)
  | [], [] => isTrue rfl
  | [], _ :: _ => isFalse (fun he => List.noConfusion he)
  | _ :: _, [] => isFalse (fun he => List.noConfusion he)
  | (k1, v1) :: xs, (k2, v2) :: ys =>
    match Json.decEq v1 v2, Json.decEqFields xs ys with
    | isTrue h2, isTrue h3 =>
      if h1 : k1 = k2 then isTrue (by rw [h1, h2, h3])
      else isFalse (fun he => h1 (congrArg (fun p => p.1) (List.cons.inj he).1))
    | isFalse h2, _ =>
      isFalse (fun he => h2 (congrArg (fun p => p.2) (List.cons.inj he).1))
    | _, isFalse h3 => isFalse (fun he => h3 (List.cons.inj he).2)

end

instance : DecidableEq Json := Json.decEq

/-- Test used by `perform_switch_atomic`: `serde_json::Value::is_object`. -/
def Json.isObj : Json → Bool
  | .obj _ => true
  | _ => false

/-! ## Profile status (from `types.rs`) -/

/-- Activation status of a profile relative to the live settings
(`ProfileStatus` in `types.rs`). -/
inductive ProfileStatus where
  | FullMatch
  | PartialMatch
  | NoMatch
  | Error (reason : String)
  deriving DecidableEq, Repr

/-! ## Field-tolerant comparison (from `config_service.rs`) -/

/-- Removal of one key from the field list of a JSON object, the model of
`serde_json::Map::remove` (keys in a parsed map are unique, so filtering
every occurrence agrees with removing the single entry). -/
def removeField (fields : List (String × Json)) (k : String) : List (String × Json) :=
  fields.filter (fun p => p.1 ≠ k)

/-- Embedding of `ConfigService::compare_json_ignoring_field`: when both
values are objects, compare with the named field removed from both sides;
otherwise fall back to plain equality. -/
def compare_json_ignoring_field (json1 json2 : Json) (ignore_field : String) : Bool :=
  match json1, json2 with
  | .obj obj1, .obj obj2 =>
    decide (removeField obj1 ignore_field = removeField obj2 ignore_field)
  | _, _ => decide (json1 = json2)

/-- Definition following the words of the specification for claim C1: removing
the designated field from a value strips the field when the value is an
object and is the identity otherwise.  Used only to compare against the
source-derived `compare_json_ignoring_field`. -/
def stripField (j : Json) (k : String) : Json :=
  match j with
  | .obj fields => .obj (removeField fields k)
  | other => other

/-- Embedding of `ConfigService::get_detailed_profile_status`.
The read of the live settings file (`fs::read_to_string`) is supplied as
`default_read` (`none` models a read failure) and JSON parsing
(`serde_json::from_str`) as the function `parse` (`none` models a parse
failure); error reasons keep the wording of the source without formatted
payloads.  The source checks exact equality first and only then the
comparison that ignores the single field named `"model"`. -/
def get_detailed_profile_status (parse : String → Option Json)
    (default_read : Option String) (profile_content : String) : ProfileStatus :=
  match default_read with
  | none => .Error "Failed to read default settings"
  | some default_content =>
    match parse default_content, parse profile_content with
    | some default_json, some profile_json =>
      if profile_json = default_json then .FullMatch
      else if compare_json_ignoring_field profile_json default_json "model" then
        .PartialMatch
      else .NoMatch
    | none, _ => .Error "Invalid default settings JSON"
    | _, none => .Error "Invalid profile JSON"

/-! ## File fingerprints and metadata comparison (from `types.rs` and
`monitor_service.rs`)

Modification times (`SystemTime`) are modelled as naturals read off a
logical clock; checksums (`u32`) and sizes (`u64`) as naturals, since the
program only ever compares them for equality or against the sentinel 0. -/

/-- Fingerprint of a watched file (`FileMetadata` in `types.rs`). -/
structure FileMetadata where
  modified_time : Nat
  checksum : Nat
  size : Nat
  deriving DecidableEq, Repr

/-- Embedding of `MonitorService::compare_metadata_optimized`: report a
change when the modification times differ, else when the sizes differ,
else when both checksums are non-zero and differ. -/
def compare_metadata_optimized (cached current : FileMetadata) : Bool :=
  if cached.modified_time ≠ current.modified_time then true
  else if cached.size ≠ current.size then true
  else if cached.checksum ≠ 0 ∧ current.checksum ≠ 0 ∧ cached.checksum ≠ current.checksum then
    true
  else false

/-- Embedding of `MonitorService::compare_metadata`: the size and checksum
tests are nested inside the modification-time test, so a change is
reported only when the times differ and additionally the size or the
checksum differs. -/
def compare_metadata (cached current : FileMetadata) : Bool :=
  if cached.modified_time ≠ current.modified_time then
    if cached.size ≠ current.size then true
    else if cached.checksum ≠ current.checksum then true
    else false
  else false

/-- Definition following the words of the specification for claim C2: the
fingerprint "has changed" policy — time differs, else size differs, else
both checksums non-zero and differing.  Used only to compare against the
source-derived comparison functions. -/
def fingerprintChangedSpec (cached current : FileMetadata) : Bool :=
  if cached.modified_time ≠ current.modified_time then true
  else if cached.size ≠ current.size then true
  else
    decide (cached.checksum ≠ 0) && decide (current.checksum ≠ 0) &&
      decide (cached.checksum ≠ current.checksum)

/-! ## Filesystem model

The switch protocol manipulates files in a single directory; the model is
a flat map from path strings to entries carrying content and modification
time read off a logical clock `now`, which advances on every successful
mutation (so two states are equal exactly when no mutation happened
between them).  OS-level failures are injected per path through the
`fail*` lists, modelling unreadable or unwritable files. -/

/-- Entry for one file: its content and modification time. -/
structure FileEntry where
  content : String
  mtime : Nat
  deriving DecidableEq, Repr

/-- Filesystem state with injectable per-path failures. -/
structure FS where
  files : List (String × FileEntry)
  now : Nat
  failReads : List String
  failWrites : List String
  failRenames : List String
  deriving DecidableEq, Repr

/-- Association-list lookup of a path. -/
def FS.lookup (fs : FS) (p : String) : Option FileEntry :=
  match fs.files.find? (fun kv => kv.1 == p) with
  | some kv => some kv.2
  | none => none

/-- Insert or replace a file entry, keeping directory order for existing
paths and appending new ones. -/
def upsert (l : List (String × FileEntry)) (p : String) (e : FileEntry) :
    List (String × FileEntry) :=
  match l with
  | [] => [(p, e)]
  | (q, e0) :: rest => if q = p then (p, e) :: rest else (q, e0) :: upsert rest p e

/-- Model of `fs::read_to_string`: fails on a missing path or an injected
read failure. -/
def FS.read (fs : FS) (p : String) : Option String :=
  if p ∈ fs.failReads then none
  else
    match fs.lookup p with
    | some e => some e.content
    | none => none

/-- Model of `fs::write`: fails on an injected write failure, otherwise
stores the content with the current clock as modification time. -/
def FS.write (fs : FS) (p : String) (c : String) : Option FS :=
  if p ∈ fs.failWrites then none
  else some { fs with files := upsert fs.files p ⟨c, fs.now⟩, now := fs.now + 1 }

/-- Model of `fs::remove_file`: fails when the path is missing. -/
def FS.removeFile (fs : FS) (p : String) : Option FS :=
  match fs.lookup p with
  | none => none
  | some _ =>
    some { fs with files := fs.files.filter (fun kv => kv.1 ≠ p), now := fs.now + 1 }

/-- Model of `fs::rename`: fails when the source is missing or the
destination carries an injected rename failure; the moved entry keeps its
modification time. -/
def FS.rename (fs : FS) (src dst : String) : Option FS :=
  if dst ∈ fs.failRenames then none
  else
    match fs.lookup src with
    | none => none
    | some e =>
      some { fs with
        files := upsert (fs.files.filter (fun kv => kv.1 ≠ src)) dst e,
        now := fs.now + 1 }

/-- Model of `fs::copy`: a read of the source followed by a write of the
destination. -/
def FS.copy (fs : FS) (src dst : String) : Option FS :=
  match fs.read src with
  | none => none
  | some c => fs.write dst c

/-! ## Errors (from `error.rs`) -/

/-- Embedding of the `AppError` enum from `error.rs`; the three wrapper
variants carry their formatted message. -/
inductive AppError where
  | ClaudeNotFound
  | ConfigError (msg : String)
  | TrayError (msg : String)
  | FileSystemError (msg : String)
  | PermissionError (msg : String)
  | SettingsError (msg : String)
  | MonitorError (msg : String)
  | I18nError (msg : String)
  | IoError (msg : String)
  | JsonError (msg : String)
  | TauriError (msg : String)
  deriving DecidableEq, Repr

/-- Display rendering of `AppError` (the `#[error(...)]` attributes from
`error.rs`), used when an error is interpolated into another message. -/
def AppError.toMessage : AppError → String
  | .ClaudeNotFound => "Claude Code installation not found"
  | .ConfigError m => "Configuration file error: " ++ m
  | .TrayError m => "Tray operation failed: " ++ m
  | .FileSystemError m => "File system error: " ++ m
  | .PermissionError m => "Permission denied: " ++ m
  | .SettingsError m => "Settings error: " ++ m
  | .MonitorError m => "Monitor service error: " ++ m
  | .I18nError m => "I18n error: " ++ m
  | .IoError m => "IO error: " ++ m
  | .JsonError m => "JSON error: " ++ m
  | .TauriError m => "Tauri error: " ++ m

instance {ε α : Type} [DecidableEq ε] [DecidableEq α] : DecidableEq (Except ε α) :=
  fun a b =>
    match a, b with
    | .ok x, .ok y =>
      if h : x = y then isTrue (by rw [h])
      else isFalse (fun he => h (Except.ok.inj he))
    | .error x, .error y =>
      if h : x = y then isTrue (by rw [h])
      else isFalse (fun he => h (Except.error.inj he))
    | .ok _, .error _ => isFalse (fun he => Except.noConfusion he)
    | .error _, .ok _ => isFalse (fun he => Except.noConfusion he)

/-! ## Configuration service (from `config_service.rs` and `types.rs`) -/

/-- Embedding of the `Profile` struct from `types.rs`. -/
structure Profile where
  name : String
  path : String
  content : String
  is_active : Bool
  deriving DecidableEq, Repr

/-- Embedding of the private `ProfileCache` struct. -/
structure ProfileCache where
  metadata : FileMetadata
  content : String
  last_updated : Nat
  deriving DecidableEq, Repr

/-- Embedding of the `ConfigService` struct state. -/
structure ConfigService where
  claude_dir : String
  profiles : List Profile
  default_settings_path : String
  profile_cache : List (String × ProfileCache)
  default_settings_cache : Option (String × Nat)
  cache_ttl : Nat
  deriving DecidableEq, Repr

/-- Embedding of `ConfigService::clear_cache`. -/
def clear_cache (svc : ConfigService) : ConfigService :=
  { svc with profile_cache := [], default_settings_cache := none }

/-- Embedding of `ConfigService::is_cache_valid`: a cache stamp is valid
when its age is below the TTL; a stamp from the future (a failing
`elapsed()` call) is invalid. -/
def is_cache_valid (svc : ConfigService) (fs : FS) (last_updated : Nat) : Bool :=
  if last_updated ≤ fs.now then fs.now - last_updated < svc.cache_ttl else false

/-- Embedding of `ConfigService::read_default_settings`. -/
def read_default_settings (svc : ConfigService) (fs : FS) : Except AppError String :=
  match fs.read svc.default_settings_path with
  | some c => .ok c
  | none => .error (.ConfigError "Failed to read default settings")

/-- Embedding of `ConfigService::get_default_settings_cached`: serve the
cached live-settings content when the cache stamp is TTL-fresh and the
modification time of the file does not exceed it, otherwise read fresh and
restamp the cache. -/
def get_default_settings_cached (svc : ConfigService) (fs : FS) :
    Except AppError (String × ConfigService) :=
  let fresh : Except AppError (String × ConfigService) :=
    match read_default_settings svc fs with
    | .error e => .error e
    | .ok c => .ok (c, { svc with default_settings_cache := some (c, fs.now) })
  match svc.default_settings_cache with
  | some (cached_content, cached_time) =>
    if is_cache_valid svc fs cached_time then
      match fs.lookup svc.default_settings_path with
      | some entry =>
        if entry.mtime ≤ cached_time then .ok (cached_content, svc) else fresh
      | none => fresh
    else fresh
  | none => fresh

/-- Embedding of `ConfigService::compare_configurations_optimized`: parse
the profile content and compare it with the pre-parsed live settings; a
parse failure counts as no match. -/
def compare_configurations_optimized (parse : String → Option Json)
    (profile_content : String) (default_json : Json) : Bool :=
  match parse profile_content with
  | some profile_json => decide (profile_json = default_json)
  | none => false

/-- Embedding of `ConfigService::update_profile_status_optimized`: with an
unreadable or unparsable live settings file every profile is marked
inactive; otherwise the `is_active` flag of each profile records deep equality of
its parsed content with the live settings.  The source always returns
`Ok`, so the model returns the updated list and service directly. -/
def update_profile_status_optimized (parse : String → Option Json)
    (svc : ConfigService) (fs : FS) (profiles : List Profile) :
    List Profile × ConfigService :=
  if profiles.isEmpty then (profiles, svc)
  else
    match get_default_settings_cached svc fs with
    | .error _ => (profiles.map (fun p => { p with is_active := false }), svc)
    | .ok (default_content, svc1) =>
      match parse default_content with
      | none => (profiles.map (fun p => { p with is_active := false }), svc1)
      | some default_json =>
        (profiles.map (fun p =>
          { p with is_active :=
              compare_configurations_optimized parse p.content default_json }),
         svc1)

/-- Embedding of `ConfigService::refresh_profile_status` (always `Ok` in
the source). -/
def refresh_profile_status (parse : String → Option Json)
    (svc : ConfigService) (fs : FS) : ConfigService :=
  let res := update_profile_status_optimized parse svc fs svc.profiles
  { res.2 with profiles := res.1 }

/-- Embedding of `ConfigService::perform_switch_atomic`: validate the new
content as a JSON object, normalize it through the pretty printer, write
a sibling temp file, verify it byte for byte, atomically rename it over
the live settings path, and verify the final file again.  The mutated
filesystem is returned alongside the outcome. -/
def perform_switch_atomic (parse : String → Option Json) (pretty : Json → String)
    (svc : ConfigService) (new_content : String) (fs : FS) :
    Except AppError Unit × FS :=
  match parse new_content with
  | none => (.error (.ConfigError "Invalid JSON content"), fs)
  | some json_value =>
    if json_value.isObj = false then
      (.error (.ConfigError "Configuration must be a JSON object"), fs)
    else
      let normalized_content := pretty json_value
      let temp_path := svc.default_settings_path ++ ".tmp"
      let cleaned : Except AppError FS :=
        if (fs.lookup temp_path).isSome then
          match fs.removeFile temp_path with
          | some fs1 => .ok fs1
          | none => .error (.FileSystemError "Failed to clean up temp file")
        else .ok fs
      match cleaned with
      | .error e => (.error e, fs)
      | .ok fs1 =>
        match fs1.write temp_path normalized_content with
        | none => (.error (.FileSystemError "Failed to write temporary file"), fs1)
        | some fs2 =>
          match fs2.read temp_path with
          | none => (.error (.FileSystemError "Failed to verify temp file"), fs2)
          | some temp_verification =>
            if temp_verification ≠ normalized_content then
              let fs3 := (fs2.removeFile temp_path).getD fs2
              (.error (.FileSystemError
                "Temp file verification failed - data corruption detected"), fs3)
            else
              match fs2.rename temp_path svc.default_settings_path with
              | none =>
                let fs3 := (fs2.removeFile temp_path).getD fs2
                (.error (.FileSystemError "Failed to replace settings file"), fs3)
              | some fs3 =>
                match fs3.read svc.default_settings_path with
                | none =>
                  (.error (.FileSystemError "Failed to verify final file"), fs3)
                | some final_verification =>
                  if final_verification ≠ normalized_content then
                    (.error (.FileSystemError
                      "Final file verification failed - switch may have been corrupted"),
                     fs3)
                  else (.ok (), fs3)

/-- Embedding of `ConfigService::create_backup`: a `fs::copy` of the live
settings file to the backup path. -/
def create_backup (svc : ConfigService) (backup_path : String) (fs : FS) :
    Except AppError FS :=
  match fs.copy svc.default_settings_path backup_path with
  | some fs1 => .ok fs1
  | none => .error (.FileSystemError "Failed to create backup")

/-- Embedding of `ConfigService::restore_from_backup`: verify the backup
exists, is readable and parses as JSON, copy it to a sibling temp file and
atomically rename that over the live settings path, then drop the backup. -/
def restore_from_backup (parse : String → Option Json) (svc : ConfigService)
    (backup_path : String) (fs : FS) : Except AppError Unit × FS :=
  if (fs.lookup backup_path).isNone then
    (.error (.FileSystemError "Backup file does not exist"), fs)
  else
    match fs.read backup_path with
    | none => (.error (.FileSystemError "Failed to read backup file"), fs)
    | some backup_content =>
      match parse backup_content with
      | none => (.error (.ConfigError "Backup file contains invalid JSON"), fs)
      | some _ =>
        let temp_path := svc.default_settings_path ++ ".restore_tmp"
        match fs.copy backup_path temp_path with
        | none => (.error (.FileSystemError "Failed to copy backup to temp"), fs)
        | some fs1 =>
          match fs1.rename temp_path svc.default_settings_path with
          | none =>
            let fs2 := (fs1.removeFile temp_path).getD fs1
            (.error (.FileSystemError "Failed to restore from backup"), fs2)
          | some fs2 =>
            let fs3 := (fs2.removeFile backup_path).getD fs2
            (.ok (), fs3)

/-- Test for the Rust `str::starts_with` test on path strings. -/
def strStartsWith (s pre : String) : Bool := pre.data.isPrefixOf s.data

/-- Insertion step for sorting directory entries newest-first by
modification time. -/
def insertByMtimeDesc (x : String × FileEntry) :
    List (String × FileEntry) → List (String × FileEntry)
  | [] => [x]
  | y :: ys =>
    if y.2.mtime ≤ x.2.mtime then x :: y :: ys else y :: insertByMtimeDesc x ys

/-- Insertion sort of directory entries newest-first by modification time,
the model of the `sort_by` call in `cleanup_old_backups`. -/
def sortByMtimeDesc : List (String × FileEntry) → List (String × FileEntry)
  | [] => []
  | x :: xs => insertByMtimeDesc x (sortByMtimeDesc xs)

/-- Embedding of `ConfigService::cleanup_old_backups`: list the files
whose name starts with the backup pattern, sort them newest-first by
modification time, and remove all but the five most recent (removal
failures are ignored).  The model uses a flat directory, so the file name of an entry is its path. -/
def cleanup_old_backups (svc : ConfigService) (fs : FS) : FS :=
  let backup_pattern := svc.default_settings_path ++ ".backup."
  let backup_files := fs.files.filter (fun kv => strStartsWith kv.1 backup_pattern)
  let old := (sortByMtimeDesc backup_files).drop 5
  old.foldl (fun acc kv => (acc.removeFile kv.1).getD acc) fs

/-- Embedding of `ConfigService::switch_profile`.  Paths derived with
`Path::with_extension` are modelled as suffix appends, which agrees with
the source because the live settings path always ends in `.json` (set in
`ConfigService::new`); the backup timestamp (`SystemTime::now` in seconds)
is read off the filesystem clock. -/
def switch_profile (parse : String → Option Json) (pretty : Json → String)
    (svc : ConfigService) (fs : FS) (profile_name : String) :
    Except AppError Unit × ConfigService × FS :=
  if profile_name = "" then
    (.error (.ConfigError "Profile name cannot be empty"), svc, fs)
  else
    match svc.profiles.find? (fun p => p.name == profile_name) with
    | none =>
      (.error (.ConfigError ("Profile " ++ profile_name ++ " not found")), svc, fs)
    | some profile =>
      if profile.is_active then (.ok (), svc, fs)
      else
        match parse profile.content with
        | none =>
          (.error (.ConfigError
            ("Profile " ++ profile_name ++ " contains invalid JSON")), svc, fs)
        | some _ =>
          if (fs.lookup svc.default_settings_path).isNone then
            (.error (.FileSystemError "Default settings file does not exist"), svc, fs)
          else
            let test_write_path := svc.default_settings_path ++ ".write_test"
            match fs.write test_write_path "test" with
            | none =>
              (.error (.FileSystemError "Cannot write to settings directory"), svc, fs)
            | some fsA =>
              let fsB := (fsA.removeFile test_write_path).getD fsA
              let timestamp := fsB.now
              let backup_path :=
                svc.default_settings_path ++ ".backup." ++ toString timestamp
              match create_backup svc backup_path fsB with
              | .error e =>
                (.error (.FileSystemError
                  ("Failed to create backup before switching: " ++ e.toMessage)),
                 svc, fsB)
              | .ok fsC =>
                match perform_switch_atomic parse pretty svc profile.content fsC with
                | (.ok _, fsD) =>
                  let svc1 := clear_cache svc
                  let svc2 := refresh_profile_status parse svc1 fsD
                  let fsE := cleanup_old_backups svc2 fsD
                  (.ok (), svc2, fsE)
                | (.error e, fsD) =>
                  match restore_from_backup parse svc backup_path fsD with
                  | (.ok _, fsE) => (.error e, svc, fsE)
                  | (.error rollback_err, fsE) =>
                    (.error (.ConfigError
                      ("Profile switch failed and rollback failed. Original error: "
                        ++ e.toMessage ++ ". Rollback error: "
                        ++ rollback_err.toMessage)), svc, fsE)

/-! ## Change monitor (from `monitor_service.rs` and `types.rs`) -/

/-- Embedding of the `ChangeType` enum. -/
inductive ChangeType where
  | Modified
  | Created
  | Deleted
  deriving DecidableEq, Repr

/-- Embedding of the `ConfigFileChange` struct. -/
structure ConfigFileChange where
  file_path : String
  change_type : ChangeType
  deriving DecidableEq, Repr

/-- Association-list lookup in the fingerprint metadata cache (the
`HashMap<PathBuf, FileMetadata>`). -/
def lookupMeta (m : List (String × FileMetadata)) (p : String) : Option FileMetadata :=
  match m.find? (fun kv => kv.1 == p) with
  | some kv => some kv.2
  | none => none

/-- Insert or replace in the fingerprint metadata cache. -/
def upsertMeta (m : List (String × FileMetadata)) (p : String) (v : FileMetadata) :
    List (String × FileMetadata) :=
  match m with
  | [] => [(p, v)]
  | (q, w) :: rest => if q = p then (p, v) :: rest else (q, w) :: upsertMeta rest p v

/-- Removal from the fingerprint metadata cache (`HashMap::remove`). -/
def eraseMeta (m : List (String × FileMetadata)) (p : String) :
    List (String × FileMetadata) :=
  m.filter (fun kv => kv.1 ≠ p)

/-- Answers the OS gives about one path during `add_file_to_monitor`:
whether it exists, whether it is a regular file, and the size reported by
`fs::metadata` (`none` models a failing metadata call, whose size check
the source skips). -/
structure PathInfo where
  pathExists : Bool
  isFile : Bool
  size : Option Nat
  deriving DecidableEq, Repr

/-- Size ceiling for watched files from `add_file_to_monitor` (10 MiB). -/
def MAX_FILE_SIZE : Nat := 10 * 1024 * 1024

/-- Watch-list and fingerprint-cache state of `MonitorService`. -/
structure MonitorState where
  monitored_files : List String
  file_metadata : List (String × FileMetadata)
  deriving DecidableEq, Repr

/-- Embedding of `MonitorService::add_file_to_monitor`: reject missing
paths, non-files and oversized files; ignore duplicates; append the path
and, when the list then exceeds 50 entries, evict the earliest-added path
and drop its fingerprint cache entry. -/
def add_file_to_monitor (env : String → PathInfo) (st : MonitorState)
    (path : String) : MonitorState :=
  if (env path).pathExists = false then st
  else if (env path).isFile = false then st
  else
    let oversized : Bool :=
      match (env path).size with
      | some n => decide (n > MAX_FILE_SIZE)
      | none => false
    if oversized then st
    else if st.monitored_files.contains path then st
    else
      let files := st.monitored_files ++ [path]
      if files.length > 50 then
        match files with
        | [] => { st with monitored_files := files }
        | removed :: rest =>
          { monitored_files := rest,
            file_metadata := st.file_metadata.filter (fun kv => kv.1 ≠ removed) }
      else { st with monitored_files := files }

/-- Answers the OS gives during a scan: existence, the `fs::metadata`
result as a pair of modification time and size (`none` models a failing
metadata or `modified()` call), and the `fs::read_to_string` result. -/
structure ProbeEnv where
  pathExists : String → Bool
  metadataResult : String → Option (Nat × Nat)
  readResult : String → Option String

/-- Embedding of `MonitorService::get_file_metadata_optimized` with the
crc32 hash of the external `crc32fast` crate threaded as `crc`: files
above 1 MiB skip the content read and record the sentinel checksum 0, as
does a failing content read. -/
def get_file_metadata_optimized (crc : String → Nat) (env : ProbeEnv)
    (path : String) : Option FileMetadata :=
  match env.metadataResult path with
  | none => none
  | some (mtime, size) =>
    let checksum :=
      if size > 1024 * 1024 then 0
      else
        match env.readResult path with
        | some content => crc content
        | none => 0
    some { modified_time := mtime, checksum := checksum, size := size }

/-- Embedding of `MonitorService::scan_single_file`: a missing but
previously known path is Deleted, a present unknown path is Created, a
present known path whose fingerprint changed is Modified; a failing
metadata probe is the only error source. -/
def scan_single_file (crc : String → Nat) (env : ProbeEnv) (file_path : String)
    (cached_metadata : List (String × FileMetadata)) :
    Except AppError (List ConfigFileChange) :=
  if env.pathExists file_path = false then
    if (lookupMeta cached_metadata file_path).isSome then
      .ok [{ file_path := file_path, change_type := .Deleted }]
    else .ok []
  else
    match get_file_metadata_optimized crc env file_path with
    | some current_metadata =>
      match lookupMeta cached_metadata file_path with
      | some cached =>
        if compare_metadata_optimized cached current_metadata then
          .ok [{ file_path := file_path, change_type := .Modified }]
        else .ok []
      | none => .ok [{ file_path := file_path, change_type := .Created }]
    | none => .error (.FileSystemError "Failed to get metadata")

/-- Embedding of `MonitorService::perform_scan_optimized`: scan every
watched path against a snapshot of the cache, collecting per-file errors
into a log list that is never propagated, then batch-apply the cache
updates; the result is always `Ok`. -/
def perform_scan_optimized (crc : String → Nat) (env : ProbeEnv)
    (monitored_files : List String)
    (file_metadata : List (String × FileMetadata)) :
    Except AppError (List ConfigFileChange × List (String × FileMetadata)) :=
  let cached_metadata := file_metadata
  let scanned := monitored_files.foldl
    (fun (acc : List ConfigFileChange × List String) file_path =>
      match scan_single_file crc env file_path cached_metadata with
      | .ok file_changes => (acc.1 ++ file_changes, acc.2)
      | .error e => (acc.1, acc.2 ++ [AppError.toMessage e]))
    ([], [])
  let changes := scanned.1
  let new_map :=
    if changes.isEmpty then file_metadata
    else
      changes.foldl
        (fun m change =>
          match change.change_type with
          | .Created | .Modified =>
            match get_file_metadata_optimized crc env change.file_path with
            | some new_metadata => upsertMeta m change.file_path new_metadata
            | none => m
          | .Deleted => eraseMeta m change.file_path)
        file_metadata
  .ok (changes, new_map)

/-! ## Poll-loop step relation (from `MonitorService::start_monitoring`)

The loop of the spawned task is modelled as a function consuming a finite
stream of scan outcomes, one per tick.  The `is_running` flag is checked
before each scan; the local `consecutive_errors` counter and the shared
`scan_error_count` evolve exactly as in the source, and the trace records
how many scans (probes) were issued and which backoff sleeps were taken.
The change callback has no bearing on the claims and is not modelled. -/

/-- Outcome of one `perform_scan_optimized` call as seen by the loop. -/
inductive ScanOutcome where
  | ok (changes : List ConfigFileChange)
  | err
  deriving DecidableEq, Repr

/-- Loop-visible monitor state: the local consecutive-error counter, the
shared error counter, and the shared running flag. -/
structure LoopState where
  consecutive_errors : Nat
  scan_error_count : Nat
  is_running : Bool
  deriving DecidableEq, Repr

/-- Observable trace of a loop run: final state, number of scans issued,
and the backoff sleeps taken (in seconds). -/
structure LoopTrace where
  final : LoopState
  probes : Nat
  backoffs : List Nat
  deriving DecidableEq, Repr

/-- Backoff sleep before the next tick after a failed scan, from the
source line `Duration::from_secs(std::cmp::min(300, 30 * consecutive_errors))`. -/
def backoffSeconds (consecutive_errors : Nat) : Nat :=
  min 300 (30 * consecutive_errors)

/-- Value of the `max_scan_errors` field set in `MonitorService::new`. -/
def default_max_scan_errors : Nat := 10

/-- Embedding of the poll loop spawned by `start_monitoring`: each
iteration breaks when the running flag is cleared, otherwise issues one
scan; success resets both error counters, failure increments them and
either trips the fail-stop (clearing the running flag and breaking) or
sleeps the backoff before the next tick. -/
def monitorRun (max_scan_errors : Nat) (s : LoopState) :
    List ScanOutcome → LoopTrace
  | [] => { final := s, probes := 0, backoffs := [] }
  | outcome :: rest =>
    if s.is_running = false then { final := s, probes := 0, backoffs := [] }
    else
      match outcome with
      | .ok _changes =>
        let s1 := { s with consecutive_errors := 0, scan_error_count := 0 }
        let t := monitorRun max_scan_errors s1 rest
        { final := t.final, probes := t.probes + 1, backoffs := t.backoffs }
      | .err =>
        let ce := s.consecutive_errors + 1
        if ce ≥ max_scan_errors then
          { final := { consecutive_errors := ce, scan_error_count := ce,
                       is_running := false },
            probes := 1, backoffs := [] }
        else
          let s1 := { s with consecutive_errors := ce, scan_error_count := ce }
          let t := monitorRun max_scan_errors s1 rest
          { final := t.final, probes := t.probes + 1,
            backoffs := backoffSeconds ce :: t.backoffs }

/-! ## Concrete instances for witnesses and counterexamples

The parser and printer parameters stand for `serde_json::from_str` and
`serde_json::to_string_pretty`; witnesses instantiate them with small
concrete functions that satisfy the round-trip equations required at the
values involved.  Content strings are opaque tokens. -/

/-- Parsed value of the `work` profile in the example scenario. -/
def vWork : Json := Json.obj [("model", Json.str "m2"), ("theme", Json.str "dark")]

/-- Parsed value of the live settings before the switch. -/
def vOld : Json := Json.obj [("model", Json.str "m1"), ("theme", Json.str "dark")]

/-- Concrete printer used in witnesses. -/
def pretty0 : Json → String := fun v =>
  if v = vWork then "NORM-WORK" else if v = vOld then "NORM-OLD" else "NORM-OTHER"

/-- Concrete parser used in witnesses; raw and normalized spellings of the
two values parse back to them, everything else fails to parse. -/
def parse0 : String → Option Json := fun s =>
  if s = "RAW-WORK" then some vWork
  else if s = "NORM-WORK" then some vWork
  else if s = "RAW-OLD" then some vOld
  else if s = "NORM-OLD" then some vOld
  else none

/-- Service state with one inactive `work` profile. -/
def svcW : ConfigService :=
  { claude_dir := "claude"
    profiles := [{ name := "work", path := "work.settings.json",
                   content := "RAW-WORK", is_active := false }]
    default_settings_path := "settings.json"
    profile_cache := []
    default_settings_cache := none
    cache_ttl := 60 }

/-- Healthy filesystem: live settings and the profile file, no failures. -/
def fsW : FS :=
  { files := [("settings.json", { content := "RAW-OLD", mtime := 0 }),
              ("work.settings.json", { content := "RAW-WORK", mtime := 0 })]
    now := 10
    failReads := []
    failWrites := []
    failRenames := [] }

/-- Filesystem where every rename onto the live settings path fails, so
the atomic commit and the rollback both fail. -/
def fsRb : FS :=
  { files := [("settings.json", { content := "RAW-OLD", mtime := 0 }),
              ("work.settings.json", { content := "RAW-WORK", mtime := 0 })]
    now := 10
    failReads := []
    failWrites := []
    failRenames := ["settings.json"] }

/-- Intermediate states of the failing run on `fsRb`, extracted by running
the embedded operations themselves. -/
def c4fsA : FS := (fsRb.write "settings.json.write_test" "test").getD fsRb

/-- State after the throwaway write-test file is removed again. -/
def c4fsB : FS := (c4fsA.removeFile "settings.json.write_test").getD c4fsA

/-- Backup path computed by the failing run. -/
def c4backup : String := "settings.json.backup." ++ toString c4fsB.now

/-- State after the backup copy. -/
def c4fsC : FS :=
  match create_backup svcW c4backup c4fsB with
  | .ok f => f
  | .error _ => c4fsB

/-- Result of the failing atomic switch attempt. -/
def c4atomic : Except AppError Unit × FS :=
  perform_switch_atomic parse0 pretty0 svcW "RAW-WORK" c4fsC

/-- Error of the failing atomic switch attempt. -/
def c4e : AppError :=
  match c4atomic.1 with
  | .error e => e
  | .ok _ => .ClaudeNotFound

/-- Filesystem after the failing atomic switch attempt. -/
def c4fsD : FS := c4atomic.2

/-- Result of the failing rollback attempt. -/
def c4restore : Except AppError Unit × FS :=
  restore_from_backup parse0 svcW c4backup c4fsD

/-- Error of the failing rollback attempt. -/
def c4rb : AppError :=
  match c4restore.1 with
  | .error e => e
  | .ok _ => .ClaudeNotFound

/-- Filesystem after the failing rollback attempt. -/
def c4fsE : FS := c4restore.2

/-- Fifty distinct watched paths. -/
def paths50 : List String := (List.range 50).map (fun i => "f" ++ toString i ++ ".json")

/-- Monitor state with a full watch list and a cached fingerprint for the
earliest-added path. -/
def st9 : MonitorState :=
  { monitored_files := paths50
    file_metadata := [("f0.json", { modified_time := 1, checksum := 2, size := 3 })] }

/-- Path environment for the watch-list witnesses. -/
def env9 : String → PathInfo := fun p =>
  if p = "ghost.json" then { pathExists := false, isFile := false, size := none }
  else if p = "dir.json" then { pathExists := true, isFile := false, size := none }
  else if p = "big.json" then
    { pathExists := true, isFile := true, size := some (11 * 1024 * 1024) }
  else { pathExists := true, isFile := true, size := some 100 }

/-- Result of the successful concrete switch run on the healthy
filesystem. -/
def c3run : Except AppError Unit × ConfigService × FS :=
  switch_profile parse0 pretty0 svcW fsW "work"

/-- Service state after the successful concrete switch. -/
def c3svcR : ConfigService := c3run.2.1

/-- Filesystem after the successful concrete switch. -/
def c3fsR : FS := c3run.2.2

/-- Checksum function used in scan witnesses. -/
def crc0 : String → Nat := fun s => s.length

/-- Probe environment in which one watched path fails its metadata probe. -/
def env10 : ProbeEnv :=
  { pathExists := fun _ => true
    metadataResult := fun p => if p = "bad.json" then none else some (1, 2)
    readResult := fun _ => some "x" }

/-! ## Helper lemmas -/

/-- Comparison ignoring a field agrees with comparing the values with the
field stripped from both sides (the formulation of the specification). -/
theorem compare_ignoring_eq_strip (j1 j2 : Json) (f : String) :
    compare_json_ignoring_field j1 j2 f = true ↔
      stripField j1 f = stripField j2 f := by
  cases j1 <;> cases j2 <;>
    simp [compare_json_ignoring_field, stripField]

/-- Reduction of `get_detailed_profile_status` when the live settings file
is readable and both contents parse. -/
theorem get_detailed_profile_status_reduce (parse : String → Option Json)
    (dc pc : String) (dj pj : Json)
    (hd : parse dc = some dj) (hp : parse pc = some pj) :
    get_detailed_profile_status parse (some dc) pc =
      if pj = dj then .FullMatch
      else if compare_json_ignoring_field pj dj "model" then .PartialMatch
      else .NoMatch := by
  unfold get_detailed_profile_status
  simp only [hd, hp]

/-! ## Claim C1 -/

/-- C1: for a readable live settings file and contents that both parse,
`get_detailed_profile_status` returns `FullMatch` iff the parsed values
are deep-equal, `PartialMatch` iff they are unequal but become equal once
the single field `"model"` is removed from both sides, and `NoMatch`
otherwise; an unreadable live settings file or a parse failure on either
side yields `Error` with the corresponding reason, the live-settings
failure taking precedence. -/
theorem get_detailed_profile_status_spec
    (parse : String → Option Json) (default_content profile_content : String)
    (dj pj : Json)
    (hd : parse default_content = some dj)
    (hp : parse profile_content = some pj) :
    (get_detailed_profile_status parse (some default_content) profile_content
        = .FullMatch ↔ pj = dj) ∧
    (get_detailed_profile_status parse (some default_content) profile_content
        = .PartialMatch ↔
      (pj ≠ dj ∧ stripField pj "model" = stripField dj "model")) ∧
    (get_detailed_profile_status parse (some default_content) profile_content
        = .NoMatch ↔
      (pj ≠ dj ∧ stripField pj "model" ≠ stripField dj "model")) ∧
    (∀ pc, get_detailed_profile_status parse none pc
        = .Error "Failed to read default settings") ∧
    (∀ s pc, parse s = none →
      get_detailed_profile_status parse (some s) pc
        = .Error "Invalid default settings JSON") ∧
    (∀ s pc, parse s = some dj → parse pc = none →
      get_detailed_profile_status parse (some s) pc
        = .Error "Invalid profile JSON") := by
  have hred := get_detailed_profile_status_reduce parse default_content
    profile_content dj pj hd hp
  refine ⟨?_, ?_, ?_, ?_, ?_, ?_⟩
  · rw [hred]
    by_cases heq : pj = dj
    · simp [heq]
    · by_cases hcmp : compare_json_ignoring_field pj dj "model" = true <;>
        simp [heq, hcmp]
  · rw [hred]
    by_cases heq : pj = dj
    · simp [heq]
    · by_cases hcmp : compare_json_ignoring_field pj dj "model" = true
      · simp [heq, hcmp, (compare_ignoring_eq_strip pj dj "model").mp hcmp]
      · simp only [Bool.not_eq_true] at hcmp
        simp only [if_neg heq, hcmp, Bool.false_eq_true, if_false]
        constructor
        · intro h; exact absurd h (by simp)
        · intro h
          exact absurd ((compare_ignoring_eq_strip pj dj "model").mpr h.2)
            (by simp [hcmp])
  · rw [hred]
    by_cases heq : pj = dj
    · simp [heq]
    · by_cases hcmp : compare_json_ignoring_field pj dj "model" = true
      · simp only [if_neg heq, hcmp, if_true]
        constructor
        · intro h; exact absurd h (by simp)
        · intro h
          exact absurd ((compare_ignoring_eq_strip pj dj "model").mp hcmp) h.2
      · simp only [Bool.not_eq_true] at hcmp
        simp only [if_neg heq, hcmp, Bool.false_eq_true, if_false]
        refine ⟨fun _ => ⟨heq, fun hs => ?_⟩, fun _ => trivial⟩
        exact absurd ((compare_ignoring_eq_strip pj dj "model").mpr hs)
          (by simp [hcmp])
  · intro pc; rfl
  · intro s pc hs
    unfold get_detailed_profile_status
    simp only [hs]
  · intro s pc hs hpc
    unfold get_detailed_profile_status
    simp only [hs, hpc]

/-- Witness for C1 at the example scenario of the spec: the profiles differ
only in the `"model"` field, so the status is `PartialMatch`. -/
theorem get_detailed_profile_status_spec_witness :
    parse0 "RAW-OLD" = some vOld ∧ parse0 "RAW-WORK" = some vWork ∧
    (get_detailed_profile_status parse0 (some "RAW-OLD") "RAW-WORK"
        = .PartialMatch ↔
      (vWork ≠ vOld ∧ stripField vWork "model" = stripField vOld "model")) :=
  ⟨by decide, by decide,
    (get_detailed_profile_status_spec parse0 "RAW-OLD" "RAW-WORK" vOld vWork
      (by decide) (by decide)).2.1⟩

/-! ## Claim C2 -/

/-- C2 (amended): `compare_metadata_optimized` implements the stated
fingerprint policy exactly, while `compare_metadata` reports a change iff
the modification times differ and additionally the size or the checksum
differs — so equal times mask any size or checksum difference, and a time
difference alone is not reported. -/
theorem compare_metadata_behaviour (cached current : FileMetadata) :
    compare_metadata_optimized cached current = fingerprintChangedSpec cached current ∧
    (compare_metadata cached current = true ↔
      (cached.modified_time ≠ current.modified_time ∧
        (cached.size ≠ current.size ∨ cached.checksum ≠ current.checksum))) := by
  constructor
  · unfold compare_metadata_optimized fingerprintChangedSpec
    by_cases ht : cached.modified_time = current.modified_time <;>
      by_cases hs : cached.size = current.size <;>
        simp [ht, hs, Bool.and_assoc]
  · unfold compare_metadata
    by_cases ht : cached.modified_time = current.modified_time <;>
      by_cases hs : cached.size = current.size <;>
        by_cases hc : cached.checksum = current.checksum <;>
          simp [ht, hs, hc]

/-- Counterexample for C2 as stated: when only the modification time
differs, the policy (and `compare_metadata_optimized`) reports a change,
but `compare_metadata` reports none — the two functions disagree. -/
theorem compare_metadata_counterexample :
    compare_metadata
      { modified_time := 0, checksum := 7, size := 5 }
      { modified_time := 1, checksum := 7, size := 5 } = false ∧
    compare_metadata_optimized
      { modified_time := 0, checksum := 7, size := 5 }
      { modified_time := 1, checksum := 7, size := 5 } = true := by
  decide

/-! ## Helper lemmas about the filesystem model -/

/-- Lookup by one key ignores a filter that only drops another key. -/
theorem find_filter_ne (l : List (String × FileEntry)) (p q : String) (h : p ≠ q) :
    (l.filter (fun kv => kv.1 ≠ q)).find? (fun kv => kv.1 == p)
      = l.find? (fun kv => kv.1 == p) := by
  induction l with
  | nil => rfl
  | cons a rest ih =>
    by_cases hq : a.1 = q
    · have h1 : decide (a.1 ≠ q) = false := by simp [hq]
      have hap : (a.1 == p) = false := by
        rw [beq_eq_false_iff_ne]
        intro hh
        exact h (hh.symm.trans hq)
      rw [List.filter_cons, h1]
      simp only [Bool.false_eq_true, if_false]
      rw [List.find?_cons, hap]
      exact ih
    · have h1 : decide (a.1 ≠ q) = true := by simp [hq]
      rw [List.filter_cons, h1]
      simp only [if_true]
      rw [List.find?_cons, List.find?_cons]
      cases hap : (a.1 == p)
      · simp only [hap]
        exact ih
      · simp only [hap]

/-- Removing one file (ignoring a failure) preserves reads of any other
path. -/
theorem read_removeFile_other (fs : FS) (q p : String) (h : p ≠ q) :
    FS.read ((fs.removeFile q).getD fs) p = FS.read fs p := by
  unfold FS.removeFile
  cases hl : fs.lookup q with
  | none => simp
  | some e =>
    simp only [Option.getD_some]
    unfold FS.read FS.lookup
    simp only [find_filter_ne fs.files p q h]

/-- Folding removals of paths all different from `p` preserves reads of
`p`. -/
theorem read_foldl_remove (l : List (String × FileEntry)) (fs : FS) (p : String)
    (h : ∀ kv ∈ l, kv.1 ≠ p) :
    FS.read (l.foldl (fun acc kv => (acc.removeFile kv.1).getD acc) fs) p
      = FS.read fs p := by
  induction l generalizing fs with
  | nil => rfl
  | cons a rest ih =>
    rw [List.foldl_cons]
    rw [ih _ (fun kv hkv => h kv (List.mem_cons_of_mem a hkv))]
    exact read_removeFile_other fs a.1 p
      (fun hp => (h a (List.mem_cons_self a rest)) hp.symm)

/-- Insertion into the mtime-sorted list introduces no new elements. -/
theorem mem_insertByMtimeDesc (x y : String × FileEntry)
    (l : List (String × FileEntry)) (h : y ∈ insertByMtimeDesc x l) :
    y = x ∨ y ∈ l := by
  induction l with
  | nil => simpa [insertByMtimeDesc] using h
  | cons a rest ih =>
    unfold insertByMtimeDesc at h
    by_cases hc : a.2.mtime ≤ x.2.mtime
    · rw [if_pos hc] at h
      rcases List.mem_cons.mp h with h1 | h2
      · exact Or.inl h1
      · exact Or.inr h2
    · rw [if_neg hc] at h
      rcases List.mem_cons.mp h with h1 | h2
      · exact Or.inr (List.mem_cons.mpr (Or.inl h1))
      · rcases ih h2 with hx | hm
        · exact Or.inl hx
        · exact Or.inr (List.mem_cons.mpr (Or.inr hm))

/-- Sorting by mtime introduces no new elements. -/
theorem mem_sortByMtimeDesc (y : String × FileEntry)
    (l : List (String × FileEntry)) (h : y ∈ sortByMtimeDesc l) : y ∈ l := by
  induction l with
  | nil => simp [sortByMtimeDesc] at h
  | cons a rest ih =>
    unfold sortByMtimeDesc at h
    rcases mem_insertByMtimeDesc a y _ h with h1 | h2
    · exact h1 ▸ List.mem_cons_self a rest
    · exact List.mem_cons_of_mem a (ih h2)

/-- A path never starts with itself followed by the backup marker. -/
theorem not_strStartsWith_backup (p : String) :
    strStartsWith p (p ++ ".backup.") = false := by
  unfold strStartsWith
  by_contra hx
  rw [Bool.not_eq_false] at hx
  have hpre := List.isPrefixOf_iff_prefix.mp hx
  have hlen := hpre.length_le
  rw [String.data_append] at hlen
  simp at hlen

/-- Backup cleanup preserves reads of any path outside the backup
pattern. -/
theorem cleanup_preserves_read (svc : ConfigService) (fs : FS) (p : String)
    (hp : strStartsWith p (svc.default_settings_path ++ ".backup.") = false) :
    FS.read (cleanup_old_backups svc fs) p = FS.read fs p := by
  unfold cleanup_old_backups
  apply read_foldl_remove
  intro kv hkv
  have h1 := List.mem_of_mem_drop hkv
  have h2 := mem_sortByMtimeDesc _ _ h1
  have h3 := List.of_mem_filter h2
  intro he
  rw [he, hp] at h3
  exact Bool.noConfusion h3

/-- Backup cleanup preserves reads of the live settings path. -/
theorem cleanup_preserves_dsp (svc : ConfigService) (fs : FS) :
    FS.read (cleanup_old_backups svc fs) svc.default_settings_path
      = FS.read fs svc.default_settings_path :=
  cleanup_preserves_read svc fs _ (not_strStartsWith_backup _)

/-- When the atomic switch step succeeds, the live settings file in the
resulting state reads back exactly as the normalized serialization of the
parsed profile content. -/
theorem perform_switch_atomic_ok_read
    (parse : String → Option Json) (pretty : Json → String)
    (svc : ConfigService) (c : String) (fs fsD : FS) (v : Json)
    (hv : parse c = some v)
    (h : perform_switch_atomic parse pretty svc c fs = (.ok (), fsD)) :
    FS.read fsD svc.default_settings_path = some (pretty v) := by
  unfold perform_switch_atomic at h
  rw [hv] at h
  split at h
  · simp at h
  · split at h
    · simp at h
    · rename_i dj heq hobj
      injection heq with hdj
      subst hdj
      dsimp only at h
      split at h
      · simp at h
      · split at h
        · simp at h
        · split at h
          · simp at h
          · split at h
            · simp at h
            · split at h
              · simp at h
              · split at h
                · simp at h
                · split at h
                  · simp at h
                  · rename_i fs3 hren fv hfv hne
                    rw [Prod.mk.injEq] at h
                    rw [← h.2, hfv]
                    have hfveq : fv = pretty v := not_not.mp hne
                    rw [hfveq]

/-- A cached read of the live settings never changes the settings path of
the service. -/
theorem get_default_settings_cached_dsp (svc : ConfigService) (fs : FS)
    (c : String) (svc1 : ConfigService)
    (h : get_default_settings_cached svc fs = .ok (c, svc1)) :
    svc1.default_settings_path = svc.default_settings_path := by
  unfold get_default_settings_cached read_default_settings at h
  dsimp only at h
  iterate 6 (all_goals try split at h)
  all_goals try simp only [Except.ok.injEq, Prod.mk.injEq] at h
  all_goals
    first
    | rw [← h.2]
    | simp at h

/-- Updating profile statuses never changes the settings path of the
service. -/
theorem update_status_dsp (parse : String → Option Json) (svc : ConfigService)
    (fs : FS) (profiles : List Profile) :
    (update_profile_status_optimized parse svc fs profiles).2.default_settings_path
      = svc.default_settings_path := by
  unfold update_profile_status_optimized
  split
  · rfl
  · split
    · rfl
    · rename_i res dc svc1 heq
      split
      · exact get_default_settings_cached_dsp svc fs dc svc1 heq
      · exact get_default_settings_cached_dsp svc fs dc svc1 heq

/-- A status refresh never changes the settings path of the service. -/
theorem refresh_dsp (parse : String → Option Json) (svc : ConfigService)
    (fs : FS) :
    (refresh_profile_status parse svc fs).default_settings_path
      = svc.default_settings_path := by
  unfold refresh_profile_status
  exact update_status_dsp parse svc fs svc.profiles

/-- Lookup by name commutes with an activity-flag rewrite of the profile
list. -/
theorem find_name_map_active (l : List Profile) (g : Profile → Bool) (n : String) :
    (l.map (fun p => { p with is_active := g p })).find? (fun p => p.name == n)
      = (l.find? (fun p => p.name == n)).map
          (fun p => { p with is_active := g p }) := by
  induction l with
  | nil => rfl
  | cons a rest ih =>
    rw [List.map_cons, List.find?_cons, List.find?_cons]
    cases hap : (a.name == n)
    · simp only [hap]
      exact ih
    · simp only [hap]
      rfl

/-- Inversion of a successful non-trivial switch: there are intermediate
filesystems through which the run went — the atomic step succeeded on the
post-backup state, the returned service is the refreshed one, and the
returned filesystem is the cleaned-up post-commit state. -/
theorem switch_profile_ok_inversion
    (parse : String → Option Json) (pretty : Json → String)
    (svc svcR : ConfigService) (fs fsR : FS) (profile_name : String)
    (profile : Profile)
    (hname : profile_name ≠ "")
    (hfind : svc.profiles.find? (fun p => p.name == profile_name) = some profile)
    (hact : profile.is_active = false)
    (hrun : switch_profile parse pretty svc fs profile_name = (.ok (), svcR, fsR)) :
    ∃ fsC fsD, perform_switch_atomic parse pretty svc profile.content fsC
        = (.ok (), fsD) ∧
      svcR = refresh_profile_status parse (clear_cache svc) fsD ∧
      fsR = cleanup_old_backups svcR fsD := by
  unfold switch_profile at hrun
  rw [if_neg hname] at hrun
  simp only [hfind, hact, Bool.false_eq_true, if_false] at hrun
  split at hrun
  · simp at hrun
  · split at hrun
    · simp at hrun
    · split at hrun
      · simp at hrun
      · rename_i fsA hwt
        try dsimp only at hrun
        split at hrun
        · simp at hrun
        · split at hrun
          · rename_i fsC hbk2 xpair uu fsD hpsa
            rw [Prod.mk.injEq, Prod.mk.injEq] at hrun
            refine ⟨fsC, fsD, ?_, hrun.2.1.symm, ?_⟩
            · rw [hpsa]
            · rw [← hrun.2.1]
              exact hrun.2.2.symm
          · split at hrun
            · simp at hrun
            · simp at hrun

/-! ## Claim C5 -/

/-- C5 (amended): switching to a name absent from the profile list fails
before any filesystem operation: the result is `AppError::ConfigError`
with a not-found message (the error enum from `error.rs` has no dedicated
NotFound variant) and both the service and the filesystem are returned
unchanged — since every filesystem mutation advances the logical clock,
an unchanged state means no write, backup or temp file was created. -/
theorem switch_profile_not_found
    (parse : String → Option Json) (pretty : Json → String)
    (svc : ConfigService) (fs : FS) (profile_name : String)
    (hname : profile_name ≠ "")
    (hfind : svc.profiles.find? (fun p => p.name == profile_name) = none) :
    switch_profile parse pretty svc fs profile_name =
      (.error (.ConfigError ("Profile " ++ profile_name ++ " not found")),
       svc, fs) := by
  unfold switch_profile
  rw [if_neg hname, hfind]

/-- Counterexample for C5 as stated: switching to the nonexistent profile
`ghost` leaves the state untouched but returns the generic `ConfigError`
variant, not a dedicated NotFound error kind — `AppError` has no such
variant to return. -/
theorem switch_profile_not_found_counterexample :
    switch_profile parse0 pretty0 svcW fsW "ghost" =
      (.error (.ConfigError "Profile ghost not found"), svcW, fsW) := by
  decide

/-- Witness for the amended C5 at the example scenario. -/
theorem switch_profile_not_found_witness :
    ("ghost" : String) ≠ "" ∧
    svcW.profiles.find? (fun p => p.name == "ghost") = none ∧
    switch_profile parse0 pretty0 svcW fsW "ghost" =
      (.error (.ConfigError "Profile ghost not found"), svcW, fsW) :=
  ⟨by decide, by decide,
    switch_profile_not_found parse0 pretty0 svcW fsW "ghost"
      (by decide) (by decide)⟩

/-! ## Claim C4 -/

/-- C4 (amended): when the atomic write step fails after the backup was
created, `switch_profile` attempts restoration from exactly that backup;
when the restoration itself also fails, it returns `AppError::ConfigError`
with a message combining the original and the rollback errors — the same
variant used for ordinary switch failures, the error enum having no
dedicated RollbackFailed variant, so the outcome is distinguishable only
by message text. -/
theorem switch_profile_rollback_failed
    (parse : String → Option Json) (pretty : Json → String)
    (svc : ConfigService) (fs fsA fsC fsD fsE : FS) (profile_name : String)
    (profile : Profile) (v : Json) (e rollback_err : AppError)
    (hname : profile_name ≠ "")
    (hfind : svc.profiles.find? (fun p => p.name == profile_name) = some profile)
    (hact : profile.is_active = false)
    (hparse : parse profile.content = some v)
    (hlive : (fs.lookup svc.default_settings_path).isNone = false)
    (hwt : fs.write (svc.default_settings_path ++ ".write_test") "test" = some fsA)
    (hbk : create_backup svc
        (svc.default_settings_path ++ ".backup." ++
          toString ((fsA.removeFile
            (svc.default_settings_path ++ ".write_test")).getD fsA).now)
        ((fsA.removeFile (svc.default_settings_path ++ ".write_test")).getD fsA)
      = .ok fsC)
    (hatomic : perform_switch_atomic parse pretty svc profile.content fsC
      = (.error e, fsD))
    (hrestore : restore_from_backup parse svc
        (svc.default_settings_path ++ ".backup." ++
          toString ((fsA.removeFile
            (svc.default_settings_path ++ ".write_test")).getD fsA).now)
        fsD = (.error rollback_err, fsE)) :
    switch_profile parse pretty svc fs profile_name =
      (.error (.ConfigError
        ("Profile switch failed and rollback failed. Original error: "
          ++ e.toMessage ++ ". Rollback error: " ++ rollback_err.toMessage)),
       svc, fsE) := by
  unfold switch_profile
  simp only [if_neg hname, hfind, hact, hparse, hlive, hwt, hbk, hatomic, hrestore,
    Bool.false_eq_true, if_false]

/-- Counterexample for C4 as stated: a run in which the commit rename and
the rollback rename both fail returns the `ConfigError` variant, and an
ordinary failure (a missing profile) returns the very same variant, so
the two outcomes are not distinguishable by error variant. -/
theorem switch_profile_rollback_failed_counterexample :
    (switch_profile parse0 pretty0 svcW fsRb "work").1 =
      .error (.ConfigError
        ("Profile switch failed and rollback failed. Original error: " ++
          "File system error: Failed to replace settings file. " ++
          "Rollback error: File system error: Failed to restore from backup")) ∧
    (switch_profile parse0 pretty0 svcW fsRb "ghost").1 =
      .error (.ConfigError "Profile ghost not found") := by
  decide

/-- Witness for the amended C4 at the failing-rename scenario. -/
theorem switch_profile_rollback_failed_witness :
    perform_switch_atomic parse0 pretty0 svcW "RAW-WORK" c4fsC = (.error c4e, c4fsD) ∧
    restore_from_backup parse0 svcW c4backup c4fsD = (.error c4rb, c4fsE) ∧
    switch_profile parse0 pretty0 svcW fsRb "work" =
      (.error (.ConfigError
        ("Profile switch failed and rollback failed. Original error: "
          ++ c4e.toMessage ++ ". Rollback error: " ++ c4rb.toMessage)),
       svcW, c4fsE) :=
  ⟨by decide, by decide,
    switch_profile_rollback_failed parse0 pretty0 svcW fsRb c4fsA c4fsC c4fsD c4fsE
      "work"
      { name := "work", path := "work.settings.json",
        content := "RAW-WORK", is_active := false }
      vWork c4e c4rb
      (by decide) (by decide) (by decide) (by decide) (by decide)
      (by decide) (by decide) (by decide) (by decide)⟩

/-- Refresh after a committed switch, starting from cleared caches: the
fresh read of the live settings succeeds and parses, so the activity flag
of every profile records deep equality of its parsed content with the new
live value, and the live content is re-cached. -/
theorem refresh_after_commit
    (parse : String → Option Json) (svc : ConfigService) (fsD : FS)
    (nc : String) (v : Json)
    (hprofiles : svc.profiles ≠ [])
    (hread : FS.read fsD svc.default_settings_path = some nc)
    (hparse : parse nc = some v) :
    refresh_profile_status parse (clear_cache svc) fsD =
      { svc with
          profiles := svc.profiles.map (fun p =>
            { p with is_active :=
                compare_configurations_optimized parse p.content v }),
          profile_cache := [],
          default_settings_cache := some (nc, fsD.now) } := by
  have hne : svc.profiles.isEmpty = false := by
    cases hsp : svc.profiles with
    | nil => exact absurd hsp hprofiles
    | cons a l => rfl
  unfold refresh_profile_status update_profile_status_optimized
    get_default_settings_cached read_default_settings clear_cache
  dsimp only
  rw [hne]
  simp only [Bool.false_eq_true, if_false, hread, hparse]

/-! ## Claim C3 -/

/-- C3: when `switch_profile` succeeds, reading the live settings file
back from the resulting filesystem and parsing it yields the value parsed
from the stored content of the profile (the on-disk bytes are the
reformatted pretty-printed serialization, whose parse is unchanged).  The
hypotheses supply the round-trip property of the external serializer at
the value involved, and — for the no-write early return — that a recorded
`is_active` flag truthfully reports a fully matching live file. -/
theorem switch_profile_roundtrip
    (parse : String → Option Json) (pretty : Json → String)
    (svc svcR : ConfigService) (fs fsR : FS) (profile_name : String)
    (profile : Profile) (v : Json)
    (hname : profile_name ≠ "")
    (hfind : svc.profiles.find? (fun p => p.name == profile_name) = some profile)
    (hparse : parse profile.content = some v)
    (hrt : parse (pretty v) = some v)
    (hactive : profile.is_active = true →
      (FS.read fs svc.default_settings_path).bind parse = some v)
    (hrun : switch_profile parse pretty svc fs profile_name = (.ok (), svcR, fsR)) :
    (FS.read fsR svc.default_settings_path).bind parse = some v := by
  by_cases hact : profile.is_active
  · unfold switch_profile at hrun
    rw [if_neg hname] at hrun
    simp only [hfind, hact, if_true] at hrun
    rw [Prod.mk.injEq, Prod.mk.injEq] at hrun
    rw [← hrun.2.2]
    exact hactive hact
  · have hactF : profile.is_active = false := by simpa using hact
    obtain ⟨fsC, fsD, hpsa, hsvcR, hfsR⟩ :=
      switch_profile_ok_inversion parse pretty svc svcR fs fsR profile_name
        profile hname hfind hactF hrun
    have hreadD : FS.read fsD svc.default_settings_path = some (pretty v) :=
      perform_switch_atomic_ok_read parse pretty svc profile.content fsC fsD v
        hparse hpsa
    have hdsp : svcR.default_settings_path = svc.default_settings_path := by
      rw [hsvcR, refresh_dsp]
      rfl
    rw [hfsR, ← hdsp, cleanup_preserves_dsp svcR fsD, hdsp, hreadD]
    simpa using hrt

/-- Witness for C3 at the example scenario: the concrete switch succeeds
and the re-read live settings parse back to the parsed profile value. -/
theorem switch_profile_roundtrip_witness :
    switch_profile parse0 pretty0 svcW fsW "work" = (.ok (), c3svcR, c3fsR) ∧
    (FS.read c3fsR svcW.default_settings_path).bind parse0 = some vWork :=
  ⟨by decide,
    switch_profile_roundtrip parse0 pretty0 svcW c3svcR fsW c3fsR "work"
      { name := "work", path := "work.settings.json",
        content := "RAW-WORK", is_active := false }
      vWork (by decide) (by decide) (by decide) (by decide) (by decide)
      (by decide)⟩

/-! ## Claim C6 -/

/-- C6: a switch to a profile whose recorded state is active returns
success without touching the filesystem (the returned state is literally
the input state, and every mutation advances the clock, so no write
happened); consequently a second `switch_profile` immediately after a
successful one returns success with the state unchanged, performing no
file writes. -/
theorem switch_profile_idempotent
    (parse : String → Option Json) (pretty : Json → String)
    (svc svcR : ConfigService) (fs fsR : FS) (profile_name : String)
    (profile : Profile) (v : Json)
    (hname : profile_name ≠ "")
    (hfind : svc.profiles.find? (fun p => p.name == profile_name) = some profile)
    (hparse : parse profile.content = some v)
    (hrt : parse (pretty v) = some v) :
    (profile.is_active = true →
      switch_profile parse pretty svc fs profile_name = (.ok (), svc, fs)) ∧
    (switch_profile parse pretty svc fs profile_name = (.ok (), svcR, fsR) →
      switch_profile parse pretty svcR fsR profile_name = (.ok (), svcR, fsR)) := by
  constructor
  · intro hact
    unfold switch_profile
    rw [if_neg hname]
    simp only [hfind, hact, if_true]
  · intro hrun
    by_cases hact : profile.is_active
    · have h1 : switch_profile parse pretty svc fs profile_name
          = (.ok (), svc, fs) := by
        unfold switch_profile
        rw [if_neg hname]
        simp only [hfind, hact, if_true]
      rw [h1] at hrun
      rw [Prod.mk.injEq, Prod.mk.injEq] at hrun
      obtain ⟨-, h2, h3⟩ := hrun
      rw [← h2, ← h3]
      exact h1
    · have hactF : profile.is_active = false := by simpa using hact
      obtain ⟨fsC, fsD, hpsa, hsvcR, hfsR⟩ :=
        switch_profile_ok_inversion parse pretty svc svcR fs fsR profile_name
          profile hname hfind hactF hrun
      have hreadD : FS.read fsD svc.default_settings_path = some (pretty v) :=
        perform_switch_atomic_ok_read parse pretty svc profile.content fsC fsD v
          hparse hpsa
      have hprofiles : svc.profiles ≠ [] := by
        intro hsp
        rw [hsp] at hfind
        simp at hfind
      have hsvcR2 : svcR = { svc with
          profiles := svc.profiles.map (fun p =>
            { p with is_active :=
                compare_configurations_optimized parse p.content v }),
          profile_cache := [],
          default_settings_cache := some (pretty v, fsD.now) } := by
        rw [hsvcR,
          refresh_after_commit parse svc fsD (pretty v) v hprofiles hreadD hrt]
      have hfind2 : svcR.profiles.find? (fun p => p.name == profile_name)
          = some { profile with is_active :=
              compare_configurations_optimized parse profile.content v } := by
        rw [hsvcR2]
        dsimp only
        rw [find_name_map_active svc.profiles
          (fun p => compare_configurations_optimized parse p.content v)
          profile_name]
        rw [hfind]
        rfl
      have hactive2 :
          compare_configurations_optimized parse profile.content v = true := by
        unfold compare_configurations_optimized
        rw [hparse]
        simp
      unfold switch_profile
      rw [if_neg hname]
      simp only [hfind2, hactive2, if_true]

/-- Witness for C6 at the example scenario: after the concrete successful
switch, repeating it returns success with the state unchanged. -/
theorem switch_profile_idempotent_witness :
    switch_profile parse0 pretty0 svcW fsW "work" = (.ok (), c3svcR, c3fsR) ∧
    switch_profile parse0 pretty0 c3svcR c3fsR "work" = (.ok (), c3svcR, c3fsR) :=
  ⟨by decide,
    (switch_profile_idempotent parse0 pretty0 svcW c3svcR fsW c3fsR "work"
      { name := "work", path := "work.settings.json",
        content := "RAW-WORK", is_active := false }
      vWork (by decide) (by decide) (by decide) (by decide)).2 (by decide)⟩

/-! ## Loop lemmas -/

/-- A stopped monitor issues no probes, sleeps no backoffs and keeps its
state, whatever the remaining stream holds. -/
theorem monitorRun_stopped (max_scan_errors : Nat) (s : LoopState)
    (outs : List ScanOutcome) (h : s.is_running = false) :
    monitorRun max_scan_errors s outs
      = { final := s, probes := 0, backoffs := [] } := by
  cases outs with
  | nil => rfl
  | cons o rest =>
    conv_lhs => rw [monitorRun.eq_def]
    rw [h]
    simp

/-- One failing tick below the fail-stop ceiling: the error counters
advance, one probe and one backoff are recorded, and the loop goes on. -/
theorem monitorRun_err_step (max_scan_errors : Nat) (s : LoopState)
    (rest : List ScanOutcome) (hrun : s.is_running = true)
    (hce : ¬(s.consecutive_errors + 1 ≥ max_scan_errors)) :
    monitorRun max_scan_errors s (.err :: rest) =
      { final := (monitorRun max_scan_errors
          { s with consecutive_errors := s.consecutive_errors + 1,
                   scan_error_count := s.consecutive_errors + 1 } rest).final,
        probes := (monitorRun max_scan_errors
          { s with consecutive_errors := s.consecutive_errors + 1,
                   scan_error_count := s.consecutive_errors + 1 } rest).probes + 1,
        backoffs := backoffSeconds (s.consecutive_errors + 1) ::
          (monitorRun max_scan_errors
            { s with consecutive_errors := s.consecutive_errors + 1,
                     scan_error_count := s.consecutive_errors + 1 } rest).backoffs } := by
  conv_lhs => rw [monitorRun.eq_def]
  rw [hrun]
  simp [hce]

/-- One failing tick that reaches the ceiling: the running flag is
cleared, the loop breaks after this single probe, and no backoff is
slept. -/
theorem monitorRun_failstop (max_scan_errors : Nat) (s : LoopState)
    (rest : List ScanOutcome) (hrun : s.is_running = true)
    (hce : s.consecutive_errors + 1 ≥ max_scan_errors) :
    monitorRun max_scan_errors s (.err :: rest) =
      { final := { consecutive_errors := s.consecutive_errors + 1,
                   scan_error_count := s.consecutive_errors + 1,
                   is_running := false },
        probes := 1, backoffs := [] } := by
  conv_lhs => rw [monitorRun.eq_def]
  rw [hrun]
  simp [hce]

/-- A run over a block of consecutive failures that stays below the
ceiling: the counters accumulate, each failure contributes one probe and
one backoff, and the loop then continues with the rest of the stream. -/
theorem monitorRun_err_block (j : Nat) : ∀ (c : Nat) (rest : List ScanOutcome),
    c + j < 10 →
    monitorRun default_max_scan_errors
        { consecutive_errors := c, scan_error_count := c, is_running := true }
        (List.replicate j .err ++ rest) =
      { final := (monitorRun default_max_scan_errors
          { consecutive_errors := c + j, scan_error_count := c + j,
            is_running := true } rest).final,
        probes := (monitorRun default_max_scan_errors
          { consecutive_errors := c + j, scan_error_count := c + j,
            is_running := true } rest).probes + j,
        backoffs := (List.range j).map (fun i => backoffSeconds (c + i + 1)) ++
          (monitorRun default_max_scan_errors
            { consecutive_errors := c + j, scan_error_count := c + j,
              is_running := true } rest).backoffs } := by
  induction j with
  | zero => intro c rest h; simp
  | succ j ih =>
    intro c rest h
    rw [List.replicate_succ, List.cons_append]
    rw [monitorRun_err_step default_max_scan_errors _ _ rfl
      (by show ¬(c + 1 ≥ default_max_scan_errors); unfold default_max_scan_errors; omega)]
    dsimp only
    rw [ih (c + 1) rest (by omega)]
    have hc : c + 1 + j = c + (j + 1) := by omega
    rw [hc]
    dsimp only
    rw [LoopTrace.mk.injEq]
    refine ⟨rfl, by omega, ?_⟩
    rw [List.range_succ_eq_map, List.map_cons, List.map_map, List.cons_append]
    congr 1
    congr 1
    apply List.map_congr_left
    intro i hi
    show backoffSeconds (c + 1 + i + 1) = backoffSeconds (c + (i + 1) + 1)
    have harith : c + 1 + i + 1 = c + (i + 1) + 1 := by omega
    rw [harith]

/-! ## Claim C7 -/

/-- C7: starting from a fresh running loop state, a block of 10
consecutive scan failures clears the running flag and ends the loop after
exactly those 10 probes, whatever the stream holds afterwards; and for
any k below 10, a block of k failures keeps the loop polling — the probes
of the remaining stream are still issued on top of the k failed ones. -/
theorem monitor_failstop_policy (extra rest : List ScanOutcome) (k : Nat)
    (hk : k < 10) :
    ((monitorRun default_max_scan_errors
        { consecutive_errors := 0, scan_error_count := 0, is_running := true }
        (List.replicate 10 .err ++ extra)).final.is_running = false ∧
     (monitorRun default_max_scan_errors
        { consecutive_errors := 0, scan_error_count := 0, is_running := true }
        (List.replicate 10 .err ++ extra)).probes = 10) ∧
    (monitorRun default_max_scan_errors
        { consecutive_errors := 0, scan_error_count := 0, is_running := true }
        (List.replicate k .err ++ rest)).probes
      = (monitorRun default_max_scan_errors
          { consecutive_errors := k, scan_error_count := k, is_running := true }
          rest).probes + k := by
  constructor
  · have hsplit : List.replicate 10 ScanOutcome.err ++ extra
        = List.replicate 9 ScanOutcome.err ++ (ScanOutcome.err :: extra) := by
      rw [show (10 : Nat) = 9 + 1 from rfl, List.replicate_add,
        List.append_assoc]
      rfl
    rw [hsplit]
    rw [monitorRun_err_block 9 0 (ScanOutcome.err :: extra) (by omega)]
    rw [monitorRun_failstop default_max_scan_errors _ extra rfl
      (by show (0 : Nat) + 9 + 1 ≥ default_max_scan_errors
          unfold default_max_scan_errors
          omega)]
    exact ⟨rfl, rfl⟩
  · rw [monitorRun_err_block k 0 rest (by omega)]
    dsimp only
    simp

/-- Witness for C7 with three failures followed by a successful probe:
the loop is still running and has probed all four outcomes. -/
theorem monitor_failstop_policy_witness :
    (monitorRun default_max_scan_errors
        { consecutive_errors := 0, scan_error_count := 0, is_running := true }
        (List.replicate 10 .err ++ [.ok []])).probes = 10 ∧
    (monitorRun default_max_scan_errors
        { consecutive_errors := 0, scan_error_count := 0, is_running := true }
        (List.replicate 3 .err ++ [.ok []])).probes
      = (monitorRun default_max_scan_errors
          { consecutive_errors := 3, scan_error_count := 3, is_running := true }
          [.ok []]).probes + 3 :=
  ⟨(monitor_failstop_policy [.ok []] [.ok []] 3 (by decide)).1.2,
   (monitor_failstop_policy [.ok []] [.ok []] 3 (by decide)).2⟩

/-! ## Claim C8 -/

/-- C8 (amended): after the k-th consecutive failure, for k below the
fail-stop ceiling, the backoff sleep lasts min(300, 30·k) seconds — a
linear schedule 30, 60, 90, …, capped at 300 (a cap the loop never
reaches, since it stops at the 10th failure before sleeping); the sleeps
of a k-failure block are exactly that sequence. -/
theorem monitor_backoff_linear (k : Nat) (hk : k < 10) :
    (monitorRun default_max_scan_errors
        { consecutive_errors := 0, scan_error_count := 0, is_running := true }
        (List.replicate k .err)).backoffs
      = (List.range k).map (fun i => min 300 (30 * (i + 1))) ∧
    backoffSeconds k = min 300 (30 * k) := by
  constructor
  · have h0 := monitorRun_err_block k 0 [] (by omega)
    rw [show List.replicate k ScanOutcome.err ++ []
        = List.replicate k ScanOutcome.err from by simp] at h0
    have hnil : monitorRun default_max_scan_errors
        { consecutive_errors := 0 + k, scan_error_count := 0 + k,
          is_running := true } []
      = { final := { consecutive_errors := 0 + k, scan_error_count := 0 + k,
                     is_running := true },
          probes := 0, backoffs := [] } := rfl
    rw [h0, hnil]
    dsimp only
    simp [backoffSeconds]
  · rfl

/-- Witness for C8 at k = 3: the backoffs are 30, 60 and 90 seconds. -/
theorem monitor_backoff_linear_witness :
    (monitorRun default_max_scan_errors
        { consecutive_errors := 0, scan_error_count := 0, is_running := true }
        (List.replicate 3 .err)).backoffs
      = (List.range 3).map (fun i => min 300 (30 * (i + 1))) :=
  (monitor_backoff_linear 3 (by decide)).1

/-- Counterexample for C8 as stated: after three consecutive failures the
recorded backoffs are 30, 60 and 90 seconds, not the doubling schedule
30, 60, 120 claimed by min(300, 30·2^(k-1)). -/
theorem monitor_backoff_counterexample :
    (monitorRun default_max_scan_errors
        { consecutive_errors := 0, scan_error_count := 0, is_running := true }
        (List.replicate 3 .err)).backoffs = [30, 60, 90] ∧
    [30, 60, 90] ≠
      [min 300 (30 * 2 ^ (1 - 1)), min 300 (30 * 2 ^ (2 - 1)),
       min 300 (30 * 2 ^ (3 - 1))] := by
  decide

/-! ## Watch-list lemmas -/

/-- Rejected paths are never added: missing paths, non-files and
oversized files leave the monitor state unchanged. -/
theorem add_file_rejects (env : String → PathInfo) (st : MonitorState)
    (path : String)
    (hbad : (env path).pathExists = false ∨ (env path).isFile = false ∨
      (∃ n, (env path).size = some n ∧ n > MAX_FILE_SIZE)) :
    add_file_to_monitor env st path = st := by
  unfold add_file_to_monitor
  rcases hbad with h | h | ⟨n, hn, hgt⟩
  · rw [h]
    simp
  · rw [h]
    split
    · rfl
    · simp
  · rw [hn]
    split
    · rfl
    · split
      · rfl
      · dsimp only
        simp [hgt]

/-- Reduction of `add_file_to_monitor` for a valid new path: only the
bounded-insertion step remains. -/
theorem add_file_valid_reduce (env : String → PathInfo) (st : MonitorState)
    (path : String)
    (hex : (env path).pathExists = true)
    (hf : (env path).isFile = true)
    (hsz : ∀ n, (env path).size = some n → ¬n > MAX_FILE_SIZE)
    (hmem : path ∉ st.monitored_files) :
    add_file_to_monitor env st path =
      (if (st.monitored_files ++ [path]).length > 50 then
        match st.monitored_files ++ [path] with
        | [] => { st with monitored_files := st.monitored_files ++ [path] }
        | removed :: rest =>
          { monitored_files := rest,
            file_metadata := st.file_metadata.filter (fun kv => kv.1 ≠ removed) }
      else { st with monitored_files := st.monitored_files ++ [path] }) := by
  unfold add_file_to_monitor
  rw [hex, hf]
  have hov : (match (env path).size with
      | some n => decide (n > MAX_FILE_SIZE)
      | none => false) = false := by
    cases hs : (env path).size with
    | none => rfl
    | some n => simpa using hsz n hs
  have hcont : st.monitored_files.contains path = false := by
    simpa using hmem
  simp only [hov, hcont, Bool.true_eq_false, Bool.false_eq_true, if_false]

/-! ## Claim C9 -/

/-- C9: `add_file_to_monitor` keeps the watch list within 50 entries and
duplicate-free; paths that do not exist, are not regular files, or exceed
10 MiB are never added; and a valid new path added to a full 50-entry
watch list evicts the earliest-added path and drops its fingerprint cache
entry. -/
theorem add_file_to_monitor_invariant
    (env : String → PathInfo) (st : MonitorState) (path : String)
    (hlen : st.monitored_files.length ≤ 50)
    (hnd : st.monitored_files.Nodup) :
    ((add_file_to_monitor env st path).monitored_files.length ≤ 50 ∧
     (add_file_to_monitor env st path).monitored_files.Nodup) ∧
    (((env path).pathExists = false ∨ (env path).isFile = false ∨
        (∃ n, (env path).size = some n ∧ n > MAX_FILE_SIZE)) →
      add_file_to_monitor env st path = st) ∧
    (∀ removed rest, st.monitored_files = removed :: rest →
      st.monitored_files.length = 50 →
      (env path).pathExists = true → (env path).isFile = true →
      (∀ n, (env path).size = some n → ¬n > MAX_FILE_SIZE) →
      path ∉ st.monitored_files →
      add_file_to_monitor env st path =
        { monitored_files := rest ++ [path],
          file_metadata := st.file_metadata.filter (fun kv => kv.1 ≠ removed) } ∧
      lookupMeta (add_file_to_monitor env st path).file_metadata removed = none) := by
  refine ⟨?_, add_file_rejects env st path, ?_⟩
  · by_cases hex : (env path).pathExists = true
    · by_cases hf : (env path).isFile = true
      · by_cases hsz : ∀ n, (env path).size = some n → ¬n > MAX_FILE_SIZE
        · by_cases hmem : path ∈ st.monitored_files
          · have hdup : add_file_to_monitor env st path = st := by
              unfold add_file_to_monitor
              rw [hex, hf]
              have hov : (match (env path).size with
                  | some n => decide (n > MAX_FILE_SIZE)
                  | none => false) = false := by
                cases hs : (env path).size with
                | none => rfl
                | some n => simpa using hsz n hs
              have hcont : st.monitored_files.contains path = true := by
                simpa using hmem
              simp only [hov, hcont, Bool.true_eq_false, Bool.false_eq_true,
                if_false, if_true]
            rw [hdup]
            exact ⟨hlen, hnd⟩
          · have hnodup2 : (st.monitored_files ++ [path]).Nodup := by
              rw [List.nodup_append]
              refine ⟨hnd, List.nodup_singleton path, ?_⟩
              intro a ha hb
              simp only [List.mem_singleton] at hb
              exact hmem (hb ▸ ha)
            rw [add_file_valid_reduce env st path hex hf hsz hmem]
            split
            · split
              · rename_i heq
                simp at heq
              · rename_i hbig x removed rest heq
                constructor
                · have h1 : (st.monitored_files ++ [path]).length
                      = rest.length + 1 := by rw [heq]; rfl
                  rw [List.length_append] at h1
                  dsimp only
                  simp only [List.length_singleton] at h1
                  omega
                · rw [heq] at hnodup2
                  exact hnodup2.of_cons
            · rename_i hsmall
              constructor
              · dsimp only
                rw [List.length_append]
                simp only [List.length_append, List.length_singleton,
                  not_lt] at hsmall
                simpa using hsmall
              · exact hnodup2
        · push_neg at hsz
          obtain ⟨n, hn, hgt⟩ := hsz
          rw [add_file_rejects env st path (Or.inr (Or.inr ⟨n, hn, hgt⟩))]
          exact ⟨hlen, hnd⟩
      · have hf2 : (env path).isFile = false := by simpa using hf
        rw [add_file_rejects env st path (Or.inr (Or.inl hf2))]
        exact ⟨hlen, hnd⟩
    · have hex2 : (env path).pathExists = false := by simpa using hex
      rw [add_file_rejects env st path (Or.inl hex2)]
      exact ⟨hlen, hnd⟩
  · intro removed rest hst hlen50 hex hf hsz hmem
    have hlen51 : (st.monitored_files ++ [path]).length > 50 := by
      rw [List.length_append, hlen50]
      simp
    have hresult : add_file_to_monitor env st path =
        { monitored_files := rest ++ [path],
          file_metadata := st.file_metadata.filter (fun kv => kv.1 ≠ removed) } := by
      rw [add_file_valid_reduce env st path hex hf hsz hmem, if_pos hlen51, hst,
        List.cons_append]
    refine ⟨hresult, ?_⟩
    rw [hresult]
    dsimp only
    unfold lookupMeta
    have hnone : (st.file_metadata.filter (fun kv => kv.1 ≠ removed)).find?
        (fun kv => kv.1 == removed) = none := by
      apply List.find?_eq_none.mpr
      intro kv hkv
      have h3 := List.of_mem_filter hkv
      simp at h3
      simp only [beq_iff_eq]
      exact h3
    rw [hnone]

/-- Witness for C9: a monitor watching 50 distinct files accepts a valid
51st path by evicting the earliest-added one (and its cached
fingerprint), and rejects a missing path, a directory and an oversized
file outright. -/
theorem add_file_to_monitor_invariant_witness :
    paths50.length ≤ 50 ∧ paths50.Nodup ∧
    add_file_to_monitor env9 st9 "new.json" =
      { monitored_files := paths50.drop 1 ++ ["new.json"],
        file_metadata := [] } ∧
    add_file_to_monitor env9 st9 "ghost.json" = st9 := by
  have h := add_file_to_monitor_invariant env9 st9 "new.json"
    (by decide) (by decide)
  have h2 := add_file_to_monitor_invariant env9 st9 "ghost.json"
    (by decide) (by decide)
  refine ⟨by decide, by decide, ?_, ?_⟩
  · have h3 := (h.2.2 "f0.json" (paths50.drop 1) (by decide) (by decide)
      (by decide) (by decide) (by decide) (by decide)).1
    rw [h3]
    decide
  · exact h2.2.1 (Or.inl (by decide))

/-! ## Claim C10 -/

/-- One successful tick: both error counters reset, one probe is
recorded, no backoff is slept, and the loop goes on. -/
theorem monitorRun_ok_step (max_scan_errors : Nat) (s : LoopState)
    (changes : List ConfigFileChange) (rest : List ScanOutcome)
    (hrun : s.is_running = true) :
    monitorRun max_scan_errors s (.ok changes :: rest) =
      { final := (monitorRun max_scan_errors
          { s with consecutive_errors := 0, scan_error_count := 0 } rest).final,
        probes := (monitorRun max_scan_errors
          { s with consecutive_errors := 0, scan_error_count := 0 } rest).probes + 1,
        backoffs := (monitorRun max_scan_errors
          { s with consecutive_errors := 0, scan_error_count := 0 } rest).backoffs } := by
  conv_lhs => rw [monitorRun.eq_def]
  rw [hrun]
  simp

/-- A loop fed only successful scans keeps running and never sleeps a
backoff. -/
theorem monitorRun_all_ok (outcomes : List ScanOutcome) :
    ∀ s : LoopState, s.is_running = true →
    (∀ o ∈ outcomes, o ≠ ScanOutcome.err) →
    (monitorRun default_max_scan_errors s outcomes).final.is_running = true ∧
    (monitorRun default_max_scan_errors s outcomes).backoffs = [] := by
  induction outcomes with
  | nil => intro s hrun _; exact ⟨hrun, rfl⟩
  | cons o rest ih =>
    intro s hrun hok
    cases o with
    | err => exact absurd rfl (hok _ (List.mem_cons_self _ _))
    | ok changes =>
      rw [monitorRun_ok_step default_max_scan_errors s changes rest hrun]
      dsimp only
      exact ih _ hrun (fun o2 ho2 => hok o2 (List.mem_cons_of_mem _ ho2))

/-- C10: `perform_scan_optimized` returns `Ok` on every input —
individual probe errors are collected into a log list, never propagated —
and consequently a poll loop fed only such `Ok` outcomes never reaches
its failure branch: it keeps running and sleeps no backoff. -/
theorem perform_scan_optimized_always_ok
    (crc : String → Nat) (env : ProbeEnv) (monitored_files : List String)
    (file_metadata : List (String × FileMetadata)) :
    (∃ r, perform_scan_optimized crc env monitored_files file_metadata = .ok r) ∧
    (∀ (s : LoopState) (outcomes : List ScanOutcome),
      s.is_running = true →
      (∀ o ∈ outcomes, o ≠ ScanOutcome.err) →
      (monitorRun default_max_scan_errors s outcomes).final.is_running = true ∧
      (monitorRun default_max_scan_errors s outcomes).backoffs = []) :=
  ⟨⟨_, rfl⟩, fun s outcomes h1 h2 => monitorRun_all_ok outcomes s h1 h2⟩

/-- Witness for C10: with one watched path whose metadata probe fails,
the scan still returns `Ok`, and a two-tick all-ok loop stays running
with no backoffs. -/
theorem perform_scan_optimized_always_ok_witness :
    (∃ r, perform_scan_optimized crc0 env10 ["bad.json", "good.json"] []
      = .ok r) ∧
    ((monitorRun default_max_scan_errors
        { consecutive_errors := 0, scan_error_count := 0, is_running := true }
        [.ok [], .ok []]).final.is_running = true ∧
     (monitorRun default_max_scan_errors
        { consecutive_errors := 0, scan_error_count := 0, is_running := true }
        [.ok [], .ok []]).backoffs = []) :=
  ⟨(perform_scan_optimized_always_ok crc0 env10 ["bad.json", "good.json"] []).1,
   (perform_scan_optimized_always_ok crc0 env10 ["bad.json", "good.json"] []).2
     { consecutive_errors := 0, scan_error_count := 0, is_running := true }
     [.ok [], .ok []] rfl (by decide)⟩

end Cccs
